import Mathlib

/-!
Verification of the pipeline-construction and file-property-detection logic of
`hcli.py` (Hardclone CLI).  The Python functions `create_image`,
`restore_image`, `detect_file_properties`, `select_encryption`, `select_split`,
`select_output_path` and the two workflow drivers are shallowly embedded as
pure Lean functions.  Filesystem state is an explicit list of existing paths
(in arbitrary listing order, standing for whatever order `glob` enumerates),
the 16-byte header read is an `Option (List Nat)` (`none` = the read raised),
and each interactive dialog answer is an explicit input field.  Characters are
treated with their ASCII semantics (`str.isdigit`, `str.upper` are modelled on
the basic-latin range, which is what the tool's size strings use).
-/

namespace Hardclone

/-- Split a character list at its LAST occurrence of `sep`:
`some (before, after)` where `before ++ [sep] ++ after` is the input, or
`none` when `sep` does not occur.  Used to model `os.path.dirname`,
`os.path.basename` and Python's `rsplit(sep, 1)`. -/
def splitLastAux (sep : Char) : List Char → Option (List Char × List Char)
  | [] => none
  | c :: cs =>
    match splitLastAux sep cs with
    | some (a, b) => some (c :: a, b)
    | none => if c = sep then some ([], cs) else none

/-- Model of `os.path.basename`: the part after the last `/` (the whole
path when there is no `/`). -/
def py_basename (p : String) : String :=
  match splitLastAux '/' p.data with
  | none => p
  | some (_, b) => String.mk b

/-- Model of `os.path.dirname`: everything up to the last `/`, with trailing
slashes stripped unless the head consists only of slashes. -/
def py_dirname (p : String) : String :=
  match splitLastAux '/' p.data with
  | none => ""
  | some (a, _) =>
    let head := a ++ ['/']
    if head.all (fun c => c = '/') then String.mk head
    else String.mk ((head.reverse.dropWhile (fun c => c = '/')).reverse)

/-- Model of Python `p.rsplit('.', 1)[0]`: the part before the last `.`
(the whole string when there is no `.`). -/
def py_stem (p : String) : String :=
  match splitLastAux '.' p.data with
  | none => p
  | some (a, _) => String.mk a

/-- Model of Python `s.startswith(t)`. -/
def py_startswith (s t : String) : Bool :=
  decide (t.data <+: s.data)

/-- Model of Python `s.endswith(t)`. -/
def py_endswith (s t : String) : Bool :=
  decide (t.data <:+ s.data)

/-- Model of `os.path.join(a, b)` for POSIX paths. -/
def py_path_join (a b : String) : String :=
  if py_startswith b "/" then b
  else if a = "" then b
  else if py_endswith a "/" then a ++ b
  else a ++ "/" ++ b

/-- Model of `glob.glob` for the only pattern shape the program uses,
`<literal>*` (a literal ending in `*`): a path matches when it extends the
literal part and the matched tail contains no `/`.  The result keeps the
filesystem's listing order (`glob` promises no order). -/
def glob_star (fs : List String) (pattern : String) : List String :=
  let pfx := pattern.data.dropLast
  fs.filter (fun p => decide (pfx <+: p.data) && decide ('/' ∉ p.data.drop pfx.length))

/-- Model of Python `sep.join(parts)`. -/
def py_join_sep (sep : String) : List String → String
  | [] => ""
  | [a] => a
  | a :: b :: rest => a ++ sep ++ py_join_sep sep (b :: rest)

/-- Model of Python `s.upper()` (basic-latin case mapping, charwise). -/
def py_upper (s : String) : String :=
  String.mk (s.data.map Char.toUpper)

/-- Model of `size.upper()[0].isdigit()`, total (`false` on the empty string,
which the caller guards against). -/
def upper_first_isdigit (s : String) : Bool :=
  match (py_upper s).data with
  | [] => false
  | c :: _ => c.isDigit

/-- Does the string begin with a (decimal ASCII) digit? -/
def first_char_digit (s : String) : Bool :=
  match s.data with
  | [] => false
  | c :: _ => c.isDigit

/-- Lexicographic comparison of character lists by code point, the order
Python uses on `str`: the empty list is least, otherwise compare heads and
recurse on equal heads. -/
def chars_le : List Char → List Char → Bool
  | [], _ => true
  | _ :: _, [] => false
  | a :: as, b :: bs =>
    if a.toNat < b.toNat then true
    else if b.toNat < a.toNat then false
    else chars_le as bs

/-- Lexicographic `≤` on strings by code point (Python's string order). -/
def str_le (a b : String) : Bool :=
  chars_le a.data b.data

/-- Insert a string into a (sorted) list, keeping `str_le` order. -/
def py_sorted_insert (x : String) : List String → List String
  | [] => [x]
  | y :: ys => if str_le x y then x :: y :: ys else y :: py_sorted_insert x ys

/-- Model of Python `sorted` on strings: lexicographic insertion sort. -/
def py_sorted : List String → List String
  | [] => []
  | x :: xs => py_sorted_insert x (py_sorted xs)

/-! ## `create_image` (hcli.py lines 466-507): the backup pipeline string -/

/-- Faithful translation of the command string built by `create_image`:
`dd` read piped through the optional `gzip`/`openssl`/`split` stages, with the
exact literals of the source. -/
def create_image_cmd (PARTITION OUTPUT_PATH : String) (COMPRESS ENCRYPT SPLIT : Bool)
    (SPLIT_SIZE ENCRYPT_PASSWORD : String) : String :=
  let cmd := "dd if=" ++ PARTITION ++ " bs=1M"
  let out_file := OUTPUT_PATH
  let (cmd, pipeline) :=
    if COMPRESS && ENCRYPT then
      if SPLIT then
        (cmd, "gzip | openssl enc -aes-256-cbc -salt -pbkdf2 -pass pass:" ++ ENCRYPT_PASSWORD
          ++ " | split -b " ++ SPLIT_SIZE ++ " - " ++ out_file ++ ".")
      else
        (cmd, "gzip | openssl enc -aes-256-cbc -salt -pbkdf2 -pass pass:" ++ ENCRYPT_PASSWORD
          ++ " -out " ++ out_file ++ ".gz.enc")
    else if COMPRESS then
      if SPLIT then
        (cmd, "gzip | split -b " ++ SPLIT_SIZE ++ " - " ++ out_file ++ ".gz.")
      else
        (cmd, "gzip > " ++ out_file ++ ".gz")
    else if ENCRYPT then
      if SPLIT then
        (cmd, "openssl enc -aes-256-cbc -salt -pbkdf2 -pass pass:" ++ ENCRYPT_PASSWORD
          ++ " | split -b " ++ SPLIT_SIZE ++ " - " ++ out_file ++ ".enc.")
      else
        (cmd, "openssl enc -aes-256-cbc -salt -pbkdf2 -pass pass:" ++ ENCRYPT_PASSWORD
          ++ " -out " ++ out_file ++ ".enc")
    else if SPLIT then
      (cmd, "split -b " ++ SPLIT_SIZE ++ " - " ++ out_file ++ ".")
    else
      (cmd ++ " of=" ++ out_file, "")
  if pipeline ≠ "" then cmd ++ " | " ++ pipeline else cmd

/-! ## Spec-side backup pipeline (spec.md section 4.1, claim C1) -/

/-- Abstract pipeline stage, following the spec's Pipeline data model. -/
inductive BackupStage
  | rawRead (src : String)
  | compressStage
  | encryptStage (pw : String)
  | splitStage (size pfx : String)
  | writeTo (dst : String)
deriving DecidableEq

/-- Output-name suffix convention of the spec: `.gz.enc`, `.gz`, `.enc`, or
nothing, from the (compress, encrypt) flags. -/
def spec_suffix (compress encrypt : Bool) : String :=
  if compress && encrypt then ".gz.enc"
  else if compress then ".gz"
  else if encrypt then ".enc"
  else ""

/-- Modelled from the spec's words (claim C1): source read, then compression
if requested, then encryption if requested, then splitting (with the split
prefix being the suffixed output name plus a trailing `.`) or a direct write
to the suffixed output name. -/
def spec_backup_stages (src out : String) (c e s : Bool) (size pw : String) :
    List BackupStage :=
  [BackupStage.rawRead src]
  ++ (if c then [BackupStage.compressStage] else [])
  ++ (if e then [BackupStage.encryptStage pw] else [])
  ++ (if s then [BackupStage.splitStage size (out ++ spec_suffix c e ++ ".")]
      else [BackupStage.writeTo (out ++ spec_suffix c e)])

/-- The split prefix the code actually uses: the suffixed output name plus `.`
except in the compress-and-encrypt case, where the bare output name plus `.`
is used. -/
def amended_split_pfx (out : String) (c e : Bool) : String :=
  if c && e then out ++ "." else out ++ spec_suffix c e ++ "."

/-- The amended backup pipeline (claim C1, corrected): as `spec_backup_stages`
but with the split prefix of `amended_split_pfx`. -/
def amended_backup_stages (src out : String) (c e s : Bool) (size pw : String) :
    List BackupStage :=
  [BackupStage.rawRead src]
  ++ (if c then [BackupStage.compressStage] else [])
  ++ (if e then [BackupStage.encryptStage pw] else [])
  ++ (if s then [BackupStage.splitStage size (amended_split_pfx out c e)]
      else [BackupStage.writeTo (out ++ spec_suffix c e)])

/-- Render the tail of a backup stage list as the shell text that follows the
initial read stage.  A terminal `writeTo` is attached to the preceding
transform the way the code writes it (`-out` for openssl, `>` for gzip). -/
def render_backup_tail : List BackupStage → String
  | [] => ""
  | [BackupStage.compressStage, BackupStage.writeTo dst] => " | gzip > " ++ dst
  | [BackupStage.encryptStage pw, BackupStage.writeTo dst] =>
    " | openssl enc -aes-256-cbc -salt -pbkdf2 -pass pass:" ++ pw ++ " -out " ++ dst
  | BackupStage.compressStage :: rest => " | gzip" ++ render_backup_tail rest
  | BackupStage.encryptStage pw :: rest =>
    " | openssl enc -aes-256-cbc -salt -pbkdf2 -pass pass:" ++ pw ++ render_backup_tail rest
  | BackupStage.splitStage size pfx :: rest =>
    " | split -b " ++ size ++ " - " ++ pfx ++ render_backup_tail rest
  | BackupStage.rawRead src :: rest => " | dd if=" ++ src ++ " bs=1M" ++ render_backup_tail rest
  | BackupStage.writeTo _ :: rest => render_backup_tail rest

/-- Render a backup stage list to the one shell command line: the leading raw
read (merged with an immediately following direct write, as `dd ... of=`),
then the remaining stages joined by pipes. -/
def render_backup : List BackupStage → String
  | BackupStage.rawRead src :: BackupStage.writeTo dst :: rest =>
    "dd if=" ++ src ++ " bs=1M of=" ++ dst ++ render_backup_tail rest
  | BackupStage.rawRead src :: rest => "dd if=" ++ src ++ " bs=1M" ++ render_backup_tail rest
  | stages => render_backup_tail stages

example :
    create_image_cmd "/dev/sda1" "/tmp/img" true false false "1G" "pw"
      = render_backup (spec_backup_stages "/dev/sda1" "/tmp/img" true false false "1G" "pw") := by
  rfl

example :
    create_image_cmd "/dev/sda1" "/tmp/img" true true true "1G" "pw"
      = render_backup (amended_backup_stages "/dev/sda1" "/tmp/img" true true true "1G" "pw") := by
  rfl

/-! ## `detect_file_properties` (hcli.py lines 339-377) -/

/-- The three flags `detect_file_properties` assigns (the program's globals
`IS_ENCRYPTED`, `IS_COMPRESSED`, `IS_SPLIT`). -/
structure FileProps where
  IS_ENCRYPTED : Bool
  IS_COMPRESSED : Bool
  IS_SPLIT : Bool
deriving DecidableEq

/-- The `split_files` accumulation of `detect_file_properties`: glob the
file's directory with `<basename>.*` and (when the basename has a dot)
`<stem-of-basename>.*`, extending the accumulator with every pattern that has
more than one match. -/
def detect_split_files (fs : List String) (file_path : String) : List String :=
  let base_dir := py_dirname file_path
  let base_name := py_basename file_path
  let split_patterns :=
    [base_name ++ ".*",
     if base_name.data.contains '.' then py_stem base_name ++ ".*" else base_name ++ ".*"]
  split_patterns.foldl
    (fun acc pattern =>
      let ms := glob_star fs (py_path_join base_dir pattern)
      if ms.length > 1 then acc ++ ms else acc)
    []

/-- First bytes of an OpenSSL salted file: ASCII `Salted__`. -/
def salted_magic : List Nat := [0x53, 0x61, 0x6c, 0x74, 0x65, 0x64, 0x5f, 0x5f]

/-- First bytes of a gzip file: `1F 8B`. -/
def gzip_magic : List Nat := [0x1f, 0x8b]

/-- Faithful translation of `detect_file_properties`: split detection by
sibling glob, then suffix classification, then (only when no suffix matched)
magic-byte sniffing of the first 16 bytes; `header = none` models the
`except Exception: pass` around the read. -/
def detect_file_properties (fs : List String) (header : Option (List Nat))
    (file_path : String) : FileProps :=
  let IS_SPLIT := (detect_split_files fs file_path).length > 1
  let IS_COMPRESSED := py_endswith file_path ".gz" || py_endswith file_path ".gz.enc"
  let IS_ENCRYPTED := py_endswith file_path ".enc" || py_endswith file_path ".gz.enc"
  if IS_COMPRESSED = false ∧ IS_ENCRYPTED = false then
    match header with
    | some h =>
      if decide (gzip_magic <+: h) then
        { IS_ENCRYPTED := false, IS_COMPRESSED := true, IS_SPLIT := IS_SPLIT }
      else if decide (salted_magic <+: h) then
        { IS_ENCRYPTED := true, IS_COMPRESSED := false, IS_SPLIT := IS_SPLIT }
      else
        { IS_ENCRYPTED := false, IS_COMPRESSED := false, IS_SPLIT := IS_SPLIT }
    | none =>
      { IS_ENCRYPTED := false, IS_COMPRESSED := false, IS_SPLIT := IS_SPLIT }
  else
    { IS_ENCRYPTED := IS_ENCRYPTED, IS_COMPRESSED := IS_COMPRESSED, IS_SPLIT := IS_SPLIT }

/-! ## `restore_image` (hcli.py lines 510-561) -/

/-- The pattern loop of `restore_image`: for each pattern in order, sort the
glob matches; the first pattern with more than one match supplies the split
files, otherwise the result is empty. -/
def restore_find_split_files (fs : List String) : List String → List String
  | [] => []
  | p :: ps =>
    let ms := py_sorted (glob_star fs p)
    if ms.length > 1 then ms else restore_find_split_files fs ps

/-- The split files `restore_image` concatenates: patterns
`<RESTORE_FILE>.*` and (when the basename contains a dot)
`<RESTORE_FILE-stem>.*`, first pattern with more than one (sorted) match. -/
def restore_split_files (fs : List String) (RESTORE_FILE : String) : List String :=
  let base_name := py_basename RESTORE_FILE
  restore_find_split_files fs
    [RESTORE_FILE ++ ".*",
     if base_name.data.contains '.' then py_stem RESTORE_FILE ++ ".*" else RESTORE_FILE ++ ".*"]

/-- Model of `" ".join(f'"{f}"' for f in split_files)`. -/
def quoted_join (parts : List String) : String :=
  py_join_sep " " (parts.map (fun f => "\"" ++ f ++ "\""))

/-- The `pipeline_parts` list of `restore_image`: decrypt when encrypted, then
decompress when compressed, then the `dd` write to the partition. -/
def restore_pipeline_parts (IS_ENCRYPTED IS_COMPRESSED : Bool)
    (RESTORE_PARTITION RESTORE_PASSWORD : String) : List String :=
  (if IS_ENCRYPTED then
    ["openssl enc -aes-256-cbc -d -salt -pbkdf2 -pass pass:" ++ RESTORE_PASSWORD]
   else [])
  ++ (if IS_COMPRESSED then ["gunzip"] else [])
  ++ ["dd of=" ++ RESTORE_PARTITION ++ " bs=1M"]

/-- Faithful translation of `restore_image` up to the command it executes:
`Except.error 1` is the `sys.exit(1)` when no split files are found, otherwise
the full shell command line. -/
def restore_image_cmd (fs : List String) (RESTORE_FILE RESTORE_PARTITION : String)
    (IS_ENCRYPTED IS_COMPRESSED IS_SPLIT : Bool) (RESTORE_PASSWORD : String) :
    Except Nat String :=
  let input_res : Except Nat String :=
    if IS_SPLIT then
      let split_files := restore_split_files fs RESTORE_FILE
      if split_files = [] then Except.error 1
      else Except.ok ("cat " ++ quoted_join split_files)
    else Except.ok ("cat " ++ RESTORE_FILE)
  match input_res with
  | Except.error n => Except.error n
  | Except.ok input_cmd =>
    let pipeline_parts :=
      restore_pipeline_parts IS_ENCRYPTED IS_COMPRESSED RESTORE_PARTITION RESTORE_PASSWORD
    if pipeline_parts = [] then
      Except.ok (input_cmd ++ " | dd of=" ++ RESTORE_PARTITION ++ " bs=1M")
    else
      Except.ok (input_cmd ++ " | " ++ py_join_sep " | " pipeline_parts)

/-! ## Spec-side restore pipeline (spec.md section 4.1, claim C2) -/

/-- Abstract restore stage, following the spec's Pipeline data model. -/
inductive RestoreStage
  | concatParts (parts : List String)
  | readSingle (input : String)
  | decryptStage (pw : String)
  | decompressStage
  | writePartition (dst : String)
deriving DecidableEq

/-- Modelled from the spec's words (claim C2): concatenation of split parts
(or the single input file), then decryption if encrypted, then decompression
if compressed, then the write to the destination partition. -/
def spec_restore_stages (input : String) (parts : List String) (dst pw : String)
    (isSplit isEnc isComp : Bool) : List RestoreStage :=
  [if isSplit then RestoreStage.concatParts parts else RestoreStage.readSingle input]
  ++ (if isEnc then [RestoreStage.decryptStage pw] else [])
  ++ (if isComp then [RestoreStage.decompressStage] else [])
  ++ [RestoreStage.writePartition dst]

/-- Shell text of one restore stage. -/
def render_restore_stage : RestoreStage → String
  | RestoreStage.concatParts parts => "cat " ++ quoted_join parts
  | RestoreStage.readSingle input => "cat " ++ input
  | RestoreStage.decryptStage pw =>
    "openssl enc -aes-256-cbc -d -salt -pbkdf2 -pass pass:" ++ pw
  | RestoreStage.decompressStage => "gunzip"
  | RestoreStage.writePartition dst => "dd of=" ++ dst ++ " bs=1M"

/-- Render a restore stage list to the one shell command line (stages joined
by pipes, in order). -/
def render_restore (stages : List RestoreStage) : String :=
  py_join_sep " | " (stages.map render_restore_stage)

example :
    restore_image_cmd [] "/tmp/f.gz.enc" "/dev/sda1" true true false "pw"
      = Except.ok (render_restore
          (spec_restore_stages "/tmp/f.gz.enc" [] "/dev/sda1" "pw" false true true)) := by
  rfl

/-! ## Interactive prompt steps (hcli.py lines 211-426)

Each dialog answer is a record field: a `Bool` for whether the dialog returned
`DIALOG_OK` (false = cancel/ESC) and the entered text.  `Except.error n`
models `sys.exit(n)`. -/

/-- Answers to the encryption prompts of `select_encryption`. -/
structure EncPrompt where
  wantEncrypt : Bool
  pw1Code : Bool
  pw1 : String
  pw2Code : Bool
  pw2 : String

/-- Answers to the split prompts of `select_split`. -/
structure SplitPrompt where
  wantSplit : Bool
  sizeCode : Bool
  sizeText : String

/-- Faithful translation of `select_encryption` (lines 390-403): yes/no, then
password and confirmation; empty or cancelled first password exits 0, a
cancelled confirmation or a mismatch shows "Passwords do not match!" and
exits 1.  On success returns the `(ENCRYPT, ENCRYPT_PASSWORD)` globals. -/
def select_encryption_fn (i : EncPrompt) : Except Nat (Bool × String) :=
  if i.wantEncrypt = false then Except.ok (false, "")
  else if i.pw1Code = false ∨ i.pw1 = "" then Except.error 0
  else if i.pw2Code = false ∨ i.pw1 ≠ i.pw2 then Except.error 1
  else Except.ok (true, i.pw1)

/-- Faithful translation of `select_split` (lines 414-426): yes/no, then the
size string; cancel exits 0; an empty size or one whose first character (after
`upper()`) is not a digit shows "Invalid size format!" and exits 1.  On
success returns the `(SPLIT, SPLIT_SIZE)` globals. -/
def select_split_fn (i : SplitPrompt) : Except Nat (Bool × String) :=
  if i.wantSplit = false then Except.ok (false, "")
  else if i.sizeCode = false then Except.error 0
  else if i.sizeText = "" ∨ upper_first_isdigit i.sizeText = false then Except.error 1
  else Except.ok (true, i.sizeText)

/-- Prefix a selected tag with `/dev/` unless it already starts with it
(lines 222, 236, 286, 303). -/
def dev_path (tag : String) : String :=
  if py_startswith tag "/dev/" = false then "/dev/" ++ tag else tag

/-- Faithful translation of `select_output_path` (lines 309-324): cancel exits
0; otherwise the path is accepted and a warning dialog is shown exactly when
the partition size exceeds the free space (the Bool in the result); the
warning never aborts. -/
def select_output_path_fn (availableSpace partitionSize : Nat) (code : Bool)
    (path : String) : Except Nat (String × Bool) :=
  if code = false then Except.error 0
  else Except.ok (path, decide (partitionSize > availableSpace))

/-! ## Backup workflow (hcli.py lines 594-606 with its callees) -/

/-- Environment the backup workflow observes: device/partition inventory,
existing paths, free space and source-partition size, and whether the executed
pipeline succeeds. -/
structure BackupEnv where
  devices : List (String × String)
  partitions : List (String × String)
  existingPaths : List String
  availableSpace : Nat
  partitionSize : Nat
  ddSucceeds : Bool

/-- The user's answers to the backup workflow prompts, in prompt order. -/
structure BackupUI where
  deviceCode : Bool
  deviceTag : String
  partCode : Bool
  partTag : String
  outCode : Bool
  outPath : String
  enc : EncPrompt
  comp : Bool
  split : SplitPrompt
  confirm : Bool

/-- Faithful translation of `backup_workflow`: each `sys.exit(n)` is
`Except.error n`; completing normally returns the executed command (`none`
when the summary was declined and nothing ran).  The space warning's Bool is
discarded exactly as the `msgbox` result is. -/
def backup_workflow (env : BackupEnv) (ui : BackupUI) : Except Nat (Option String) :=
  if env.devices = [] then Except.error 1
  else if ui.deviceCode = false then Except.error 0
  else if env.partitions = [] then Except.error 1
  else if ui.partCode = false then Except.error 0
  else
    let PARTITION := dev_path ui.partTag
    if env.existingPaths.contains PARTITION = false then Except.error 1
    else
      match select_output_path_fn env.availableSpace env.partitionSize ui.outCode ui.outPath with
      | Except.error n => Except.error n
      | Except.ok (OUTPUT_PATH, _warned) =>
        match select_encryption_fn ui.enc with
        | Except.error n => Except.error n
        | Except.ok (ENCRYPT, ENCRYPT_PASSWORD) =>
          let COMPRESS := ui.comp
          match select_split_fn ui.split with
          | Except.error n => Except.error n
          | Except.ok (SPLIT, SPLIT_SIZE) =>
            if ui.confirm then
              if env.ddSucceeds then
                Except.ok (some (create_image_cmd PARTITION OUTPUT_PATH COMPRESS ENCRYPT
                  SPLIT SPLIT_SIZE ENCRYPT_PASSWORD))
              else Except.error 1
            else Except.ok none

/-- Process exit code of a workflow run: the `sys.exit` argument, or 0 when
the workflow (and hence `main`) returns normally. -/
def exit_code : Except Nat (Option String) → Nat
  | Except.error n => n
  | Except.ok _ => 0

/-- Exit code of the backup workflow. -/
def backupExitCode (env : BackupEnv) (ui : BackupUI) : Nat :=
  exit_code (backup_workflow env ui)

/-! ## Restore workflow (hcli.py lines 609-620 with its callees) -/

/-- Environment the restore workflow observes. -/
structure RestoreEnv where
  fs : List String
  header : Option (List Nat)
  devices : List (String × String)
  partitions : List (String × String)
  devPaths : List String
  runSucceeds : Bool

/-- The user's answers to the restore workflow prompts, in prompt order. -/
structure RestoreUI where
  fileCode : Bool
  filePath : String
  pwCode : Bool
  password : String
  deviceCode : Bool
  deviceTag : String
  partCode : Bool
  partTag : String
  confirm : Bool

/-- Faithful translation of `restore_workflow`: select the image file, detect
its properties, ask the password only when encrypted, select the destination,
confirm, and run `restore_image`. -/
def restore_workflow (env : RestoreEnv) (ui : RestoreUI) : Except Nat (Option String) :=
  if ui.fileCode = false then Except.error 0
  else if env.fs.contains ui.filePath = false then Except.error 1
  else
    let props := detect_file_properties env.fs env.header ui.filePath
    let pwRes : Except Nat String :=
      if props.IS_ENCRYPTED then
        if ui.pwCode = false then Except.error 0 else Except.ok ui.password
      else Except.ok ""
    match pwRes with
    | Except.error n => Except.error n
    | Except.ok RESTORE_PASSWORD =>
      if env.devices = [] then Except.error 1
      else if ui.deviceCode = false then Except.error 0
      else if env.partitions = [] then Except.error 1
      else if ui.partCode = false then Except.error 0
      else
        let RESTORE_PARTITION := dev_path ui.partTag
        if env.devPaths.contains RESTORE_PARTITION = false then Except.error 1
        else if ui.confirm then
          match restore_image_cmd env.fs ui.filePath RESTORE_PARTITION props.IS_ENCRYPTED
            props.IS_COMPRESSED props.IS_SPLIT RESTORE_PASSWORD with
          | Except.error n => Except.error n
          | Except.ok cmd => if env.runSucceeds then Except.ok (some cmd) else Except.error 1
        else Except.ok none

/-- Exit code of the restore workflow. -/
def restoreExitCode (env : RestoreEnv) (ui : RestoreUI) : Nat :=
  exit_code (restore_workflow env ui)

/-- Modelled from the spec's words (claim C7): the split-size pattern
`<digits><K|M|G>` — one or more digits followed by exactly one of `K`, `M`,
`G`. -/
def size_pattern (s : String) : Bool :=
  s.data.dropLast ≠ [] && s.data.dropLast.all Char.isDigit
    && (s.data.getLast? = some 'K' || s.data.getLast? = some 'M' || s.data.getLast? = some 'G')

/-! ## Claim C1: backup pipeline stage order and suffix convention -/

/-- Claim C1 as stated is false on the code: with compress, encrypt and split
all enabled, the split prefix the command uses is the bare output name plus
`.` (`/tmp/img.`), not the suffixed output name plus `.` (`/tmp/img.gz.enc.`)
that the claimed suffix convention demands. -/
theorem claim_C1_counterexample :
    create_image_cmd "/dev/sda1" "/tmp/img" true true true "1G" "pw"
      = "dd if=/dev/sda1 bs=1M | gzip | openssl enc -aes-256-cbc -salt -pbkdf2"
        ++ " -pass pass:pw | split -b 1G - /tmp/img."
    ∧ render_backup (spec_backup_stages "/dev/sda1" "/tmp/img" true true true "1G" "pw")
      = "dd if=/dev/sda1 bs=1M | gzip | openssl enc -aes-256-cbc -salt -pbkdf2"
        ++ " -pass pass:pw | split -b 1G - /tmp/img.gz.enc."
    ∧ create_image_cmd "/dev/sda1" "/tmp/img" true true true "1G" "pw"
      ≠ render_backup (spec_backup_stages "/dev/sda1" "/tmp/img" true true true "1G" "pw") := by
  refine ⟨by rfl, by rfl, by decide⟩

/-- Claim C1, amended: for every combination of the three booleans the
pipeline built by `create_image` is exactly source read, then compression if
requested, then encryption if requested, then splitting or a direct write
last, with the documented suffixes (`.gz.enc`, `.gz`, `.enc`, none) on the
output name — except that in the compress-and-encrypt-and-split case the
split prefix is the bare output name plus `.`, without the `.gz.enc`
suffix. -/
theorem claim_C1_amended (part out : String) (c e s : Bool) (size pw : String) :
    create_image_cmd part out c e s size pw
      = render_backup (amended_backup_stages part out c e s size pw) := by
  cases c <;> cases e <;> cases s <;>
    (simp +decide [create_image_cmd, render_backup, amended_backup_stages, amended_split_pfx,
      spec_suffix, render_backup_tail, String.append_assoc]
     try rfl)

/-! ## Claim C2: restore pipeline stage order -/

/-- Claim C2: for every combination of the three restore flags, the command
built by `restore_image` is exactly: concatenation of the split parts (or a
read of the single input file), then decryption if encrypted, then
decompression if compressed, then the write to the destination partition —
decryption always before decompression.  The hypothesis excludes the
no-split-files-found `sys.exit(1)` path. -/
theorem claim_C2_restore_order (fs : List String) (f dst pw : String)
    (isEnc isComp isSplit : Bool)
    (h : isSplit = true → restore_split_files fs f ≠ []) :
    restore_image_cmd fs f dst isEnc isComp isSplit pw
      = Except.ok (render_restore
          (spec_restore_stages f (restore_split_files fs f) dst pw isSplit isEnc isComp)) := by
  cases isSplit
  · cases isEnc <;> cases isComp <;>
      (simp +decide [restore_image_cmd, render_restore, spec_restore_stages,
        restore_pipeline_parts, render_restore_stage, py_join_sep, String.append_assoc]
       try rfl)
  · have h' := h rfl
    cases hsf : restore_split_files fs f with
    | nil => exact absurd hsf h'
    | cons x xs =>
      cases isEnc <;> cases isComp <;>
        (simp +decide [restore_image_cmd, render_restore, spec_restore_stages, hsf,
          restore_pipeline_parts, render_restore_stage, py_join_sep, String.append_assoc]
         try rfl)

/-- Witness for `claim_C2_restore_order` at a concrete split restore. -/
theorem claim_C2_witness :
    (true = true → restore_split_files ["/d/out.aa", "/d/out.ab"] "/d/out" ≠ [])
    ∧ restore_image_cmd ["/d/out.aa", "/d/out.ab"] "/d/out" "/dev/sda1" true true true "pw"
      = Except.ok (render_restore
          (spec_restore_stages "/d/out" (restore_split_files ["/d/out.aa", "/d/out.ab"] "/d/out")
            "/dev/sda1" "pw" true true true)) :=
  ⟨by decide, claim_C2_restore_order ["/d/out.aa", "/d/out.ab"] "/d/out" "/dev/sda1" "pw"
    true true true (by decide)⟩

/-! ## Suffix facts used by the detection claims -/

/-- Of two suffixes of the same list, the shorter is a suffix of the longer. -/
theorem suffix_total {l₁ l₂ l₃ : List Char} (h₁ : l₁ <:+ l₃) (h₂ : l₂ <:+ l₃)
    (h : l₁.length ≤ l₂.length) : l₁ <:+ l₂ := by
  obtain ⟨t₁, e₁⟩ := h₁
  obtain ⟨t₂, e₂⟩ := h₂
  have e : t₁ ++ l₁ = t₂ ++ l₂ := e₁.trans e₂.symm
  have hlen : t₁.length + l₁.length = t₂.length + l₂.length := by
    have := congrArg List.length e
    simpa using this
  have hk : t₁.length = t₂.length + (l₂.length - l₁.length) := by omega
  have hd : l₁ = List.drop (l₂.length - l₁.length) l₂ := by
    calc l₁ = List.drop t₁.length (t₁ ++ l₁) := (List.drop_left _ _).symm
    _ = List.drop t₁.length (t₂ ++ l₂) := by rw [e]
    _ = List.drop (t₂.length + (l₂.length - l₁.length)) (t₂ ++ l₂) := by rw [← hk]
    _ = List.drop (l₂.length - l₁.length) l₂ := List.drop_append _
  rw [hd]
  exact List.drop_suffix _ _

/-- A path ending in `.gz` ends in neither `.enc` nor `.gz.enc`. -/
theorem endswith_gz_excl {path : String} (h : py_endswith path ".gz" = true) :
    py_endswith path ".enc" = false ∧ py_endswith path ".gz.enc" = false := by
  simp only [py_endswith, decide_eq_true_eq] at h
  constructor
  · rw [py_endswith, decide_eq_false_iff_not]
    intro h2
    exact absurd (suffix_total h h2 (by decide)) (by decide)
  · rw [py_endswith, decide_eq_false_iff_not]
    intro h2
    exact absurd (suffix_total h h2 (by decide)) (by decide)

/-- A path ending in `.enc` does not end in `.gz`. -/
theorem endswith_enc_not_gz {path : String} (h : py_endswith path ".enc" = true) :
    py_endswith path ".gz" = false := by
  simp only [py_endswith, decide_eq_true_eq] at h
  rw [py_endswith, decide_eq_false_iff_not]
  intro h2
  exact absurd (suffix_total h2 h (by decide)) (by decide)

/-- A path ending in `.gz.enc` ends in `.enc`. -/
theorem endswith_gzenc_enc {path : String} (h : py_endswith path ".gz.enc" = true) :
    py_endswith path ".enc" = true := by
  simp only [py_endswith, decide_eq_true_eq] at h ⊢
  exact List.IsSuffix.trans (by decide) h

/-- A string extended with `t` ends in `t`. -/
theorem endswith_append (a t : String) : py_endswith (a ++ t) t = true := by
  simp only [py_endswith, decide_eq_true_eq, String.data_append]
  exact List.suffix_append _ _

/-! ## Claim C3: detection precedence (suffix first, then magic bytes) -/

/-- Claim C3: `detect_file_properties` classifies by suffix first — `.gz.enc`
gives both flags, `.gz` compressed only, `.enc` encrypted only, and in those
cases the header is never consulted — and only when no suffix matches does it
look at the first bytes: a `1F 8B` prefix gives compressed, a `Salted__`
prefix gives encrypted, and anything else (including an unreadable header)
gives neither. -/
theorem claim_C3_detect_precedence (fs : List String) (hdr : Option (List Nat)) (path : String) :
    (py_endswith path ".gz.enc" = true →
      (detect_file_properties fs hdr path).IS_COMPRESSED = true
      ∧ (detect_file_properties fs hdr path).IS_ENCRYPTED = true)
    ∧ (py_endswith path ".gz" = true →
      (detect_file_properties fs hdr path).IS_COMPRESSED = true
      ∧ (detect_file_properties fs hdr path).IS_ENCRYPTED = false)
    ∧ (py_endswith path ".enc" = true → py_endswith path ".gz.enc" = false →
      (detect_file_properties fs hdr path).IS_ENCRYPTED = true
      ∧ (detect_file_properties fs hdr path).IS_COMPRESSED = false)
    ∧ ((py_endswith path ".gz" = true ∨ py_endswith path ".enc" = true) →
      ∀ h₁ h₂ : Option (List Nat),
        detect_file_properties fs h₁ path = detect_file_properties fs h₂ path)
    ∧ (py_endswith path ".gz" = false → py_endswith path ".enc" = false →
      (∀ h : List Nat, gzip_magic <+: h →
        (detect_file_properties fs (some h) path).IS_COMPRESSED = true
        ∧ (detect_file_properties fs (some h) path).IS_ENCRYPTED = false)
      ∧ (∀ h : List Nat, ¬ gzip_magic <+: h → salted_magic <+: h →
        (detect_file_properties fs (some h) path).IS_ENCRYPTED = true
        ∧ (detect_file_properties fs (some h) path).IS_COMPRESSED = false)
      ∧ (∀ h : List Nat, ¬ gzip_magic <+: h → ¬ salted_magic <+: h →
        (detect_file_properties fs (some h) path).IS_COMPRESSED = false
        ∧ (detect_file_properties fs (some h) path).IS_ENCRYPTED = false)) := by
  refine ⟨?_, ?_, ?_, ?_, ?_⟩
  · intro hge
    have henc := endswith_gzenc_enc hge
    simp [detect_file_properties, hge, henc]
  · intro hgz
    obtain ⟨henc, hgze⟩ := endswith_gz_excl hgz
    simp [detect_file_properties, hgz, henc, hgze]
  · intro henc hgze
    have hgz := endswith_enc_not_gz henc
    simp [detect_file_properties, hgz, henc, hgze]
  · rintro (hgz | henc) h₁ h₂
    · simp [detect_file_properties, hgz]
    · simp [detect_file_properties, henc]
  · intro hgz henc
    have hgze : py_endswith path ".gz.enc" = false := by
      cases hg : py_endswith path ".gz.enc" with
      | false => rfl
      | true => exact absurd (endswith_gzenc_enc hg) (by simp [henc])
    refine ⟨?_, ?_, ?_⟩
    · intro h hmagic
      simp [detect_file_properties, hgz, henc, hgze, hmagic]
    · intro h hng hsalt
      simp [detect_file_properties, hgz, henc, hgze, hng, hsalt]
    · intro h hng hns
      simp [detect_file_properties, hgz, henc, hgze, hng, hns]

/-- Witness for `claim_C3_detect_precedence`: a `.gz`-suffixed name is
compressed-only, and a suffixless name with a `Salted__` header is
encrypted-only. -/
theorem claim_C3_witness :
    ((detect_file_properties [] none "/tmp/a.gz").IS_COMPRESSED = true
      ∧ (detect_file_properties [] none "/tmp/a.gz").IS_ENCRYPTED = false)
    ∧ ((detect_file_properties [] (some salted_magic) "/tmp/a.img").IS_ENCRYPTED = true
      ∧ (detect_file_properties [] (some salted_magic) "/tmp/a.img").IS_COMPRESSED = false) :=
  ⟨(claim_C3_detect_precedence [] none "/tmp/a.gz").2.1 (by decide),
   ((claim_C3_detect_precedence [] (some salted_magic) "/tmp/a.img").2.2.2.2
      (by decide) (by decide)).2.1 salted_magic (by decide) (by decide)⟩

/-! ## Claim C4: backup/inspect round trip for compress+encrypt, no split -/

/-- Claim C4: inspecting the output path the compress+encrypt+no-split backup
produces (the chosen output path with `.gz.enc` appended), in a directory
where its sibling glob patterns have at most one match (no other file shares
its name prefix), yields encrypted, compressed and not split — whatever the
header read would return. -/
theorem claim_C4_roundtrip (fs : List String) (hdr : Option (List Nat)) (out : String)
    (hs : (detect_split_files fs (out ++ ".gz.enc")).length ≤ 1) :
    detect_file_properties fs hdr (out ++ ".gz.enc")
      = { IS_ENCRYPTED := true, IS_COMPRESSED := true, IS_SPLIT := false } := by
  have hgze : py_endswith (out ++ ".gz.enc") ".gz.enc" = true := endswith_append out ".gz.enc"
  have henc : py_endswith (out ++ ".gz.enc") ".enc" = true := endswith_gzenc_enc hgze
  have hsplit : ¬ ((detect_split_files fs (out ++ ".gz.enc")).length > 1) := by omega
  simp [detect_file_properties, hgze, henc, hsplit]

/-- Witness for `claim_C4_roundtrip`: the file `/tmp/img.gz.enc` alone in its
directory. -/
theorem claim_C4_witness :
    (detect_split_files ["/tmp/img.gz.enc"] ("/tmp/img" ++ ".gz.enc")).length ≤ 1
    ∧ detect_file_properties ["/tmp/img.gz.enc"] none ("/tmp/img" ++ ".gz.enc")
      = { IS_ENCRYPTED := true, IS_COMPRESSED := true, IS_SPLIT := false } :=
  ⟨by decide, claim_C4_roundtrip ["/tmp/img.gz.enc"] none "/tmp/img" (by decide)⟩

/-! ## Claim C10: totality of detection on unreadable files -/

/-- Claim C10: `detect_file_properties` is total — the header read's failure
is absorbed (`header = none` models the caught exception), and in that case,
with no matching suffix, both the compressed and encrypted flags stay
false. -/
theorem claim_C10_unreadable (fs : List String) (path : String)
    (hgz : py_endswith path ".gz" = false) (henc : py_endswith path ".enc" = false) :
    (detect_file_properties fs none path).IS_COMPRESSED = false
    ∧ (detect_file_properties fs none path).IS_ENCRYPTED = false := by
  have hgze : py_endswith path ".gz.enc" = false := by
    cases hg : py_endswith path ".gz.enc" with
    | false => rfl
    | true => exact absurd (endswith_gzenc_enc hg) (by simp [henc])
  simp [detect_file_properties, hgz, henc, hgze]

/-- Witness for `claim_C10_unreadable` at a plain image name. -/
theorem claim_C10_witness :
    (detect_file_properties ["/tmp/disk.img"] none "/tmp/disk.img").IS_COMPRESSED = false
    ∧ (detect_file_properties ["/tmp/disk.img"] none "/tmp/disk.img").IS_ENCRYPTED = false :=
  claim_C10_unreadable ["/tmp/disk.img"] "/tmp/disk.img" (by decide) (by decide)

/-! ## Order facts for the split-part sort (claim C5) -/

/-- Two `UInt32`s with the same `toNat` are equal. -/
theorem uint32_eq_of_toNat_eq {a b : UInt32} (h : a.toNat = b.toNat) : a = b := by
  cases a
  cases b
  exact congrArg UInt32.mk (BitVec.eq_of_toNat_eq h)

/-- Two characters with the same code point are equal. -/
theorem char_toNat_inj {a b : Char} (h : a.toNat = b.toNat) : a = b :=
  Char.ext (uint32_eq_of_toNat_eq h)

/-- `chars_le` is total. -/
theorem chars_le_total : ∀ (a b : List Char), chars_le a b = true ∨ chars_le b a = true
  | [], _ => Or.inl rfl
  | _ :: _, [] => Or.inr rfl
  | a :: as, b :: bs => by
    by_cases h1 : a.toNat < b.toNat
    · left
      simp [chars_le, h1]
    · by_cases h2 : b.toNat < a.toNat
      · right
        simp [chars_le, h2]
      · rcases chars_le_total as bs with ih | ih
        · left
          simp [chars_le, h1, h2, ih]
        · right
          simp [chars_le, h1, h2, ih]

/-- `chars_le` is transitive. -/
theorem chars_le_trans : ∀ {a b c : List Char},
    chars_le a b = true → chars_le b c = true → chars_le a c = true
  | [], _, _, _, _ => rfl
  | _ :: _, [], _, h1, _ => by simp [chars_le] at h1
  | _ :: _, _ :: _, [], _, h2 => by simp [chars_le] at h2
  | a :: as, b :: bs, c :: cs, h1, h2 => by
    simp only [chars_le] at h1 h2 ⊢
    by_cases hab : a.toNat < b.toNat
    · by_cases hbc : b.toNat < c.toNat
      · rw [if_pos (show a.toNat < c.toNat by omega)]
      · rw [if_neg hbc] at h2
        by_cases hcb : c.toNat < b.toNat
        · rw [if_pos hcb] at h2
          exact absurd h2 (by simp)
        · rw [if_pos (show a.toNat < c.toNat by omega)]
    · rw [if_neg hab] at h1
      by_cases hba : b.toNat < a.toNat
      · rw [if_pos hba] at h1
        exact absurd h1 (by simp)
      · rw [if_neg hba] at h1
        by_cases hbc : b.toNat < c.toNat
        · rw [if_pos (show a.toNat < c.toNat by omega)]
        · rw [if_neg hbc] at h2
          by_cases hcb : c.toNat < b.toNat
          · rw [if_pos hcb] at h2
            exact absurd h2 (by simp)
          · rw [if_neg hcb] at h2
            rw [if_neg (show ¬ a.toNat < c.toNat by omega),
              if_neg (show ¬ c.toNat < a.toNat by omega)]
            exact chars_le_trans h1 h2

/-- `chars_le` is antisymmetric. -/
theorem chars_le_antisymm : ∀ {a b : List Char},
    chars_le a b = true → chars_le b a = true → a = b
  | [], [], _, _ => rfl
  | [], _ :: _, _, h2 => by simp [chars_le] at h2
  | _ :: _, [], h1, _ => by simp [chars_le] at h1
  | a :: as, b :: bs, h1, h2 => by
    simp only [chars_le] at h1 h2
    by_cases hab : a.toNat < b.toNat
    · rw [if_neg (show ¬ b.toNat < a.toNat by omega), if_pos hab] at h2
      exact absurd h2 (by simp)
    · rw [if_neg hab] at h1
      by_cases hba : b.toNat < a.toNat
      · rw [if_pos hba] at h1
        exact absurd h1 (by simp)
      · rw [if_neg hba] at h1
        rw [if_neg hba, if_neg hab] at h2
        have hhd : a = b := char_toNat_inj (by omega)
        rw [hhd, chars_le_antisymm h1 h2]

/-- `str_le` is total. -/
theorem str_le_total (a b : String) : str_le a b = true ∨ str_le b a = true :=
  chars_le_total a.data b.data

/-- `str_le` is transitive. -/
theorem str_le_trans {a b c : String} (h1 : str_le a b = true) (h2 : str_le b c = true) :
    str_le a c = true :=
  chars_le_trans h1 h2

/-- `str_le` is antisymmetric. -/
theorem str_le_antisymm {a b : String} (h1 : str_le a b = true) (h2 : str_le b a = true) :
    a = b :=
  String.ext (chars_le_antisymm h1 h2)

instance : IsAntisymm String (fun a b => str_le a b = true) :=
  ⟨fun _ _ h1 h2 => str_le_antisymm h1 h2⟩

/-- Inserting permutes to consing. -/
theorem py_sorted_insert_perm (x : String) (l : List String) :
    (py_sorted_insert x l).Perm (x :: l) := by
  induction l with
  | nil => exact List.Perm.refl _
  | cons y ys ih =>
    rw [py_sorted_insert]
    by_cases h : str_le x y = true
    · rw [if_pos h]
    · rw [if_neg h]
      exact (ih.cons y).trans (List.Perm.swap x y ys)

/-- `py_sorted` permutes to the input. -/
theorem py_sorted_perm (l : List String) : (py_sorted l).Perm l := by
  induction l with
  | nil => exact List.Perm.refl _
  | cons x xs ih =>
    exact (py_sorted_insert_perm x (py_sorted xs)).trans (ih.cons x)

/-- Inserting into a `str_le`-sorted list keeps it sorted. -/
theorem py_sorted_insert_sorted {x : String} {l : List String}
    (hl : l.Pairwise (fun a b => str_le a b = true)) :
    (py_sorted_insert x l).Pairwise (fun a b => str_le a b = true) := by
  induction l with
  | nil => simp [py_sorted_insert]
  | cons y ys ih =>
    rw [py_sorted_insert]
    obtain ⟨hy, hys⟩ := List.pairwise_cons.mp hl
    by_cases h : str_le x y = true
    · rw [if_pos h]
      refine List.Pairwise.cons ?_ hl
      intro z hz
      rcases List.mem_cons.mp hz with rfl | hz'
      · exact h
      · exact str_le_trans h (hy z hz')
    · rw [if_neg h]
      have hyx : str_le y x = true := by
        rcases str_le_total x y with h' | h'
        · exact absurd h' h
        · exact h'
      refine List.Pairwise.cons ?_ (ih hys)
      intro z hz
      rcases List.mem_cons.mp ((py_sorted_insert_perm x ys).mem_iff.mp hz) with rfl | hz'
      · exact hyx
      · exact hy z hz'

/-- `py_sorted` sorts. -/
theorem py_sorted_sorted (l : List String) :
    (py_sorted l).Pairwise (fun a b => str_le a b = true) := by
  induction l with
  | nil => simp [py_sorted]
  | cons x xs ih => exact py_sorted_insert_sorted ih

/-- `py_sorted` depends only on the multiset of its input: permuted inputs
sort to the same list. -/
theorem py_sorted_eq_of_perm {l l' : List String} (h : l.Perm l') :
    py_sorted l = py_sorted l' :=
  List.eq_of_perm_of_sorted ((py_sorted_perm l).trans (h.trans (py_sorted_perm l').symm))
    (py_sorted_sorted l) (py_sorted_sorted l')

/-- The pattern loop of `restore_image` is invariant under permutations of
the filesystem listing. -/
theorem restore_find_split_files_perm {fs fs' : List String} (h : fs.Perm fs') :
    ∀ pats : List String, restore_find_split_files fs pats = restore_find_split_files fs' pats := by
  intro pats
  induction pats with
  | nil => rfl
  | cons p ps ih =>
    have hperm : (glob_star fs p).Perm (glob_star fs' p) := h.filter _
    have heq : py_sorted (glob_star fs p) = py_sorted (glob_star fs' p) :=
      py_sorted_eq_of_perm hperm
    simp only [restore_find_split_files, heq, ih]

/-- Each pattern's candidate list in the loop is sorted, so the result is. -/
theorem restore_find_split_files_sorted (fs : List String) :
    ∀ pats : List String,
      (restore_find_split_files fs pats).Pairwise (fun a b => str_le a b = true) := by
  intro pats
  induction pats with
  | nil => simp [restore_find_split_files]
  | cons p ps ih =>
    rw [restore_find_split_files]
    by_cases hlen : (py_sorted (glob_star fs p)).length > 1
    · simpa [hlen] using py_sorted_sorted (glob_star fs p)
    · simpa [hlen] using ih

/-! ## Claim C5: split parts are concatenated in sorted order -/

/-- Claim C5: the split parts `restore_image` collects are lexicographically
sorted, the collected list does not depend on the order the filesystem lists
the directory, and the restore command concatenates exactly that list (in
that order) in its `cat` stage. -/
theorem claim_C5_sorted_parts (fs fs' : List String) (f : String) (h : fs.Perm fs') :
    restore_split_files fs f = restore_split_files fs' f
    ∧ (restore_split_files fs f).Pairwise (fun a b => str_le a b = true)
    ∧ (∀ (dst pw : String) (isEnc isComp : Bool), restore_split_files fs f ≠ [] →
        restore_image_cmd fs f dst isEnc isComp true pw
          = Except.ok ("cat " ++ quoted_join (restore_split_files fs f) ++ " | "
              ++ py_join_sep " | " (restore_pipeline_parts isEnc isComp dst pw))) := by
  refine ⟨?_, ?_, ?_⟩
  · simp only [restore_split_files, restore_find_split_files_perm h]
  · exact restore_find_split_files_sorted fs _
  · intro dst pw isEnc isComp hne
    cases isEnc <;> cases isComp <;>
      simp [restore_image_cmd, hne, restore_pipeline_parts, py_join_sep, String.append_assoc]

/-- Witness for `claim_C5_sorted_parts`: parts `out.aa`, `out.ab`, `out.ac`
listed in scrambled order are collected sorted and concatenated in that
order. -/
theorem claim_C5_witness :
    restore_split_files ["/d/out.ab", "/d/out.ac", "/d/out.aa"] "/d/out"
      = ["/d/out.aa", "/d/out.ab", "/d/out.ac"]
    ∧ restore_split_files ["/d/out.ab", "/d/out.ac", "/d/out.aa"] "/d/out"
      = restore_split_files ["/d/out.aa", "/d/out.ab", "/d/out.ac"] "/d/out"
    ∧ restore_image_cmd ["/d/out.ab", "/d/out.ac", "/d/out.aa"] "/d/out" "/dev/sdb1"
        false false true ""
      = Except.ok ("cat " ++ quoted_join ["/d/out.aa", "/d/out.ab", "/d/out.ac"] ++ " | "
          ++ py_join_sep " | " (restore_pipeline_parts false false "/dev/sdb1" "")) :=
  ⟨by decide,
   (claim_C5_sorted_parts ["/d/out.ab", "/d/out.ac", "/d/out.aa"]
     ["/d/out.aa", "/d/out.ab", "/d/out.ac"] "/d/out" (by decide)).1,
   by
    have h3 := (claim_C5_sorted_parts ["/d/out.ab", "/d/out.ac", "/d/out.aa"]
      ["/d/out.aa", "/d/out.ab", "/d/out.ac"] "/d/out" (by decide)).2.2
      "/dev/sdb1" "" false false (by decide)
    rw [h3, show restore_split_files ["/d/out.ab", "/d/out.ac", "/d/out.aa"] "/d/out"
      = ["/d/out.aa", "/d/out.ab", "/d/out.ac"] from by decide]⟩

/-! ## Character facts for the size-format check (claims C6, C7) -/

/-- `Char.ofNat` of a valid scalar value has that value. -/
theorem char_toNat_ofNat_valid {n : Nat} (h : n.isValidChar) : (Char.ofNat n).toNat = n := by
  rw [Char.ofNat, dif_pos h]
  rfl

/-- A character is a digit exactly when its code point is in `[48, 57]`. -/
theorem isDigit_iff (c : Char) : c.isDigit = true ↔ 48 ≤ c.toNat ∧ c.toNat ≤ 57 := by
  simp [Char.isDigit, UInt32.le_def, BitVec.le_def, Char.toNat, UInt32.toNat]

/-- Upper-casing does not change digitness (it moves only `a`-`z`). -/
theorem toUpper_isDigit (c : Char) : (Char.toUpper c).isDigit = c.isDigit := by
  rw [Char.toUpper]
  by_cases h : c.toNat ≥ 97 ∧ c.toNat ≤ 122
  · rw [if_pos h]
    have hvalid : (c.toNat - 32).isValidChar := Or.inl (by omega)
    have hv : (Char.ofNat (c.toNat - 32)).toNat = c.toNat - 32 := char_toNat_ofNat_valid hvalid
    have e1 : (Char.ofNat (c.toNat - 32)).isDigit = false := by
      rw [Bool.eq_false_iff]
      intro hx
      have := (isDigit_iff _).mp hx
      rw [hv] at this
      omega
    have e2 : c.isDigit = false := by
      rw [Bool.eq_false_iff]
      intro hx
      have := (isDigit_iff _).mp hx
      omega
    rw [e1, e2]
  · rw [if_neg h]

/-- The `size.upper()[0].isdigit()` test of `select_split` is the same as
asking whether the string begins with a digit. -/
theorem upper_first_eq_first (s : String) : upper_first_isdigit s = first_char_digit s := by
  rw [upper_first_isdigit, first_char_digit, py_upper]
  cases hd : s.data with
  | nil => simp [hd]
  | cons c cs => simp [hd, toUpper_isDigit]

/-! ## Claim C6: split-size validation -/

/-- Claim C6: with splitting requested and the size prompt confirmed,
`select_split` fails with the invalid-size-format error (`sys.exit(1)`)
exactly when the entered string is empty or does not begin with a digit;
a string beginning with a digit is accepted and stored unchanged, in
particular `1G`, `500M` and `2048K`. -/
theorem claim_C6_size_validation (i : SplitPrompt) (hw : i.wantSplit = true)
    (hc : i.sizeCode = true) :
    (select_split_fn i = Except.error 1
      ↔ (i.sizeText = "" ∨ first_char_digit i.sizeText = false))
    ∧ (i.sizeText ≠ "" → first_char_digit i.sizeText = true →
        select_split_fn i = Except.ok (true, i.sizeText))
    ∧ select_split_fn ⟨true, true, "1G"⟩ = Except.ok (true, "1G")
    ∧ select_split_fn ⟨true, true, "500M"⟩ = Except.ok (true, "500M")
    ∧ select_split_fn ⟨true, true, "2048K"⟩ = Except.ok (true, "2048K") := by
  refine ⟨?_, ?_, by rfl, by rfl, by rfl⟩
  · rw [select_split_fn, if_neg (by simp [hw]), if_neg (by simp [hc]), upper_first_eq_first]
    by_cases h : i.sizeText = "" ∨ first_char_digit i.sizeText = false
    · rw [if_pos h]
      simp [h]
    · rw [if_neg h]
      simp [h]
  · intro hne hdig
    rw [select_split_fn, if_neg (by simp [hw]), if_neg (by simp [hc]), upper_first_eq_first,
      if_neg (by simp [hne, hdig])]

/-- Witness for `claim_C6_size_validation`: `G100` is rejected with the
invalid-size-format exit, `1G` is accepted unchanged. -/
theorem claim_C6_witness :
    select_split_fn ⟨true, true, "G100"⟩ = Except.error 1
    ∧ select_split_fn ⟨true, true, "1G"⟩ = Except.ok (true, "1G") :=
  ⟨(claim_C6_size_validation ⟨true, true, "G100"⟩ rfl rfl).1.mpr (Or.inr (by decide)),
   (claim_C6_size_validation ⟨true, true, "1G"⟩ rfl rfl).2.1 (by decide) (by decide)⟩

/-! ## Claim C7: BackupSpec invariant -/

/-- Claim C7 as stated is false on the code: `select_split` validates only the
first character, so `1X` (and even the unitless `123`) is accepted and stored
although it does not match `<digits><K|M|G>`. -/
theorem claim_C7_counterexample :
    select_split_fn ⟨true, true, "1X"⟩ = Except.ok (true, "1X")
    ∧ size_pattern "1X" = false
    ∧ select_split_fn ⟨true, true, "123"⟩ = Except.ok (true, "123")
    ∧ size_pattern "123" = false :=
  ⟨by rfl, by decide, by rfl, by decide⟩

/-- Claim C7, amended: on every accepted backup spec the password is
non-empty exactly when encryption is enabled, and the stored split size, when
splitting is enabled, is non-empty and begins with a digit (the code checks
only the first character, not the full `<digits><K|M|G>` pattern). -/
theorem claim_C7_amended (ei : EncPrompt) (si : SplitPrompt) (e sp : Bool) (pw size : String)
    (he : select_encryption_fn ei = Except.ok (e, pw))
    (hs : select_split_fn si = Except.ok (sp, size)) :
    ((pw ≠ "") ↔ e = true) ∧ (sp = true → size ≠ "" ∧ first_char_digit size = true) := by
  constructor
  · rw [select_encryption_fn] at he
    split at he
    · simp only [Except.ok.injEq, Prod.mk.injEq] at he
      obtain ⟨rfl, rfl⟩ := he
      simp
    · split at he
      · exact Except.noConfusion he
      · split at he
        · exact Except.noConfusion he
        · rename_i hw hpw1 _
          simp only [Except.ok.injEq, Prod.mk.injEq] at he
          obtain ⟨rfl, rfl⟩ := he
          simp only [not_or] at hpw1
          simp [hpw1.2]
  · intro hsp
    rw [select_split_fn] at hs
    split at hs
    · simp only [Except.ok.injEq, Prod.mk.injEq] at hs
      obtain ⟨rfl, _⟩ := hs
      exact absurd hsp (by simp)
    · split at hs
      · exact Except.noConfusion hs
      · split at hs
        · exact Except.noConfusion hs
        · rename_i hw hcode hsize
          simp only [Except.ok.injEq, Prod.mk.injEq] at hs
          obtain ⟨rfl, rfl⟩ := hs
          simp only [not_or] at hsize
          refine ⟨hsize.1, ?_⟩
          have := hsize.2
          rw [upper_first_eq_first] at this
          simpa using this

/-- Witness for `claim_C7_amended` at an accepted encrypt+split spec. -/
theorem claim_C7_witness :
    ((("pw" : String) ≠ "") ↔ (true = true))
    ∧ (true = true → ("1G" : String) ≠ "" ∧ first_char_digit "1G" = true) :=
  claim_C7_amended ⟨true, true, "pw", true, "pw"⟩ ⟨true, true, "1G"⟩ true true "pw" "1G"
    (by rfl) (by rfl)

/-! ## Claim C8: process exit codes -/

/-- The backup prompts up to and including the output path all succeeded. -/
def backup_prompts_ok (env : BackupEnv) (ui : BackupUI) : Prop :=
  env.devices ≠ [] ∧ ui.deviceCode = true ∧ env.partitions ≠ [] ∧ ui.partCode = true
  ∧ env.existingPaths.contains (dev_path ui.partTag) = true ∧ ui.outCode = true

/-- The restore prompts up to and including the destination partition all
succeeded (the password prompt is only reached when the file was detected
encrypted). -/
def restore_prompts_ok (env : RestoreEnv) (ui : RestoreUI) : Prop :=
  ui.fileCode = true ∧ env.fs.contains ui.filePath = true
  ∧ ((detect_file_properties env.fs env.header ui.filePath).IS_ENCRYPTED = true →
      ui.pwCode = true)
  ∧ env.devices ≠ [] ∧ ui.deviceCode = true ∧ env.partitions ≠ [] ∧ ui.partCode = true
  ∧ env.devPaths.contains (dev_path ui.partTag) = true

/-- When split files are found (or no splitting is involved), `restore_image`
reaches the execution step with some command. -/
theorem restore_image_cmd_isOk (fs : List String) (f dst pw : String)
    (isEnc isComp isSplit : Bool)
    (h : isSplit = true → restore_split_files fs f ≠ []) :
    ∃ cmd, restore_image_cmd fs f dst isEnc isComp isSplit pw = Except.ok cmd := by
  cases isSplit with
  | false => simp [restore_image_cmd, restore_pipeline_parts]
  | true =>
    cases hsf : restore_split_files fs f with
    | nil => exact absurd hsf (h rfl)
    | cons x xs => simp [restore_image_cmd, hsf, restore_pipeline_parts]

/-- Claim C8 as stated is false on the code: cancelling the
encryption-password *confirmation* prompt is a user cancellation, yet the
program shows "Passwords do not match!" and exits with code 1, not 0. -/
theorem claim_C8_counterexample :
    backupExitCode
      { devices := [("sda", "500G | Disk")], partitions := [("sda1", "100G | ext4 | /")],
        existingPaths := ["/dev/sda1"], availableSpace := 0, partitionSize := 0,
        ddSucceeds := true }
      { deviceCode := true, deviceTag := "sda", partCode := true, partTag := "sda1",
        outCode := true, outPath := "/tmp/img",
        enc := { wantEncrypt := true, pw1Code := true, pw1 := "secret",
                 pw2Code := false, pw2 := "" },
        comp := false, split := { wantSplit := false, sizeCode := false, sizeText := "" },
        confirm := true } = 1 := by
  rfl

/-- Claim C8, amended: the tool exits 0 on success and on cancellation at any
prompt *except* the encryption-password confirmation prompt, whose
cancellation (like a mismatch) exits 1; every detected precondition failure
(no devices, no partitions, missing partition or image file, password
mismatch, invalid size format, split parts not found) and every pipeline
execution failure exits 1. -/
theorem claim_C8_amended :
    (∀ env ui, env.devices = [] → backupExitCode env ui = 1)
    ∧ (∀ env ui, env.devices ≠ [] → ui.deviceCode = false → backupExitCode env ui = 0)
    ∧ (∀ env ui, env.devices ≠ [] → ui.deviceCode = true → env.partitions = [] →
        backupExitCode env ui = 1)
    ∧ (∀ env ui, env.devices ≠ [] → ui.deviceCode = true → env.partitions ≠ [] →
        ui.partCode = false → backupExitCode env ui = 0)
    ∧ (∀ env ui, env.devices ≠ [] → ui.deviceCode = true → env.partitions ≠ [] →
        ui.partCode = true → env.existingPaths.contains (dev_path ui.partTag) = false →
        backupExitCode env ui = 1)
    ∧ (∀ env ui, env.devices ≠ [] → ui.deviceCode = true → env.partitions ≠ [] →
        ui.partCode = true → env.existingPaths.contains (dev_path ui.partTag) = true →
        ui.outCode = false → backupExitCode env ui = 0)
    ∧ (∀ env ui, backup_prompts_ok env ui → ui.enc.wantEncrypt = true →
        ui.enc.pw1Code = false → backupExitCode env ui = 0)
    ∧ (∀ env ui, backup_prompts_ok env ui → ui.enc.wantEncrypt = true →
        ui.enc.pw1Code = true → ui.enc.pw1 ≠ "" →
        (ui.enc.pw2Code = false ∨ ui.enc.pw1 ≠ ui.enc.pw2) → backupExitCode env ui = 1)
    ∧ (∀ env ui e pw, backup_prompts_ok env ui →
        select_encryption_fn ui.enc = Except.ok (e, pw) → ui.split.wantSplit = true →
        ui.split.sizeCode = false → backupExitCode env ui = 0)
    ∧ (∀ env ui e pw, backup_prompts_ok env ui →
        select_encryption_fn ui.enc = Except.ok (e, pw) → ui.split.wantSplit = true →
        ui.split.sizeCode = true →
        (ui.split.sizeText = "" ∨ first_char_digit ui.split.sizeText = false) →
        backupExitCode env ui = 1)
    ∧ (∀ env ui e pw s size, backup_prompts_ok env ui →
        select_encryption_fn ui.enc = Except.ok (e, pw) →
        select_split_fn ui.split = Except.ok (s, size) → ui.confirm = true →
        env.ddSucceeds = false → backupExitCode env ui = 1)
    ∧ (∀ env ui e pw s size, backup_prompts_ok env ui →
        select_encryption_fn ui.enc = Except.ok (e, pw) →
        select_split_fn ui.split = Except.ok (s, size) → ui.confirm = true →
        env.ddSucceeds = true → backupExitCode env ui = 0)
    ∧ (∀ env ui e pw s size, backup_prompts_ok env ui →
        select_encryption_fn ui.enc = Except.ok (e, pw) →
        select_split_fn ui.split = Except.ok (s, size) → ui.confirm = false →
        backupExitCode env ui = 0)
    ∧ (∀ env ui, ui.fileCode = false → restoreExitCode env ui = 0)
    ∧ (∀ env ui, ui.fileCode = true → env.fs.contains ui.filePath = false →
        restoreExitCode env ui = 1)
    ∧ (∀ env ui, ui.fileCode = true → env.fs.contains ui.filePath = true →
        (detect_file_properties env.fs env.header ui.filePath).IS_ENCRYPTED = true →
        ui.pwCode = false → restoreExitCode env ui = 0)
    ∧ (∀ env ui, ui.fileCode = true → env.fs.contains ui.filePath = true →
        ((detect_file_properties env.fs env.header ui.filePath).IS_ENCRYPTED = true →
          ui.pwCode = true) →
        env.devices = [] → restoreExitCode env ui = 1)
    ∧ (∀ env ui, ui.fileCode = true → env.fs.contains ui.filePath = true →
        ((detect_file_properties env.fs env.header ui.filePath).IS_ENCRYPTED = true →
          ui.pwCode = true) →
        env.devices ≠ [] → ui.deviceCode = false → restoreExitCode env ui = 0)
    ∧ (∀ env ui, ui.fileCode = true → env.fs.contains ui.filePath = true →
        ((detect_file_properties env.fs env.header ui.filePath).IS_ENCRYPTED = true →
          ui.pwCode = true) →
        env.devices ≠ [] → ui.deviceCode = true → env.partitions = [] →
        restoreExitCode env ui = 1)
    ∧ (∀ env ui, ui.fileCode = true → env.fs.contains ui.filePath = true →
        ((detect_file_properties env.fs env.header ui.filePath).IS_ENCRYPTED = true →
          ui.pwCode = true) →
        env.devices ≠ [] → ui.deviceCode = true → env.partitions ≠ [] →
        ui.partCode = false → restoreExitCode env ui = 0)
    ∧ (∀ env ui, ui.fileCode = true → env.fs.contains ui.filePath = true →
        ((detect_file_properties env.fs env.header ui.filePath).IS_ENCRYPTED = true →
          ui.pwCode = true) →
        env.devices ≠ [] → ui.deviceCode = true → env.partitions ≠ [] →
        ui.partCode = true → env.devPaths.contains (dev_path ui.partTag) = false →
        restoreExitCode env ui = 1)
    ∧ (∀ env ui, restore_prompts_ok env ui → ui.confirm = false → restoreExitCode env ui = 0)
    ∧ (∀ env ui, restore_prompts_ok env ui → ui.confirm = true →
        (detect_file_properties env.fs env.header ui.filePath).IS_SPLIT = true →
        restore_split_files env.fs ui.filePath = [] → restoreExitCode env ui = 1)
    ∧ (∀ env ui, restore_prompts_ok env ui → ui.confirm = true →
        ((detect_file_properties env.fs env.header ui.filePath).IS_SPLIT = true →
          restore_split_files env.fs ui.filePath ≠ []) →
        env.runSucceeds = false → restoreExitCode env ui = 1)
    ∧ (∀ env ui, restore_prompts_ok env ui → ui.confirm = true →
        ((detect_file_properties env.fs env.header ui.filePath).IS_SPLIT = true →
          restore_split_files env.fs ui.filePath ≠ []) →
        env.runSucceeds = true → restoreExitCode env ui = 0) := by
  refine ⟨?_, ?_, ?_, ?_, ?_, ?_, ?_, ?_, ?_, ?_, ?_, ?_, ?_, ?_, ?_, ?_, ?_, ?_, ?_, ?_, ?_, ?_, ?_, ?_, ?_⟩
  · intro env ui h1
    simp [backupExitCode, backup_workflow, exit_code, h1]
  · intro env ui h1 h2
    simp [backupExitCode, backup_workflow, exit_code, h1, h2]
  · intro env ui h1 h2 h3
    simp [backupExitCode, backup_workflow, exit_code, h1, h2, h3]
  · intro env ui h1 h2 h3 h4
    simp [backupExitCode, backup_workflow, exit_code, h1, h2, h3, h4]
  · intro env ui h1 h2 h3 h4 h5
    have h5' : dev_path ui.partTag ∉ env.existingPaths := by simpa using h5
    simp [backupExitCode, backup_workflow, exit_code, h1, h2, h3, h4, h5']
  · intro env ui h1 h2 h3 h4 h5 h6
    have h5' : dev_path ui.partTag ∈ env.existingPaths := by simpa using h5
    simp [backupExitCode, backup_workflow, exit_code, select_output_path_fn,
      h1, h2, h3, h4, h5', h6]
  · intro env ui hok hw hp
    obtain ⟨h1, h2, h3, h4, h5, h6⟩ := hok
    have h5' : dev_path ui.partTag ∈ env.existingPaths := by simpa using h5
    have he : select_encryption_fn ui.enc = Except.error 0 := by
      rw [select_encryption_fn, if_neg (by simp [hw]), if_pos (Or.inl hp)]
    simp [backupExitCode, backup_workflow, exit_code, select_output_path_fn,
      h1, h2, h3, h4, h5', h6, he]
  · intro env ui hok hw hp1 hne hmix
    obtain ⟨h1, h2, h3, h4, h5, h6⟩ := hok
    have h5' : dev_path ui.partTag ∈ env.existingPaths := by simpa using h5
    have he : select_encryption_fn ui.enc = Except.error 1 := by
      rw [select_encryption_fn, if_neg (by simp [hw]), if_neg (by simp [hp1, hne]),
        if_pos hmix]
    simp [backupExitCode, backup_workflow, exit_code, select_output_path_fn,
      h1, h2, h3, h4, h5', h6, he]
  · intro env ui e pw hok he hw hc
    obtain ⟨h1, h2, h3, h4, h5, h6⟩ := hok
    have h5' : dev_path ui.partTag ∈ env.existingPaths := by simpa using h5
    have hs : select_split_fn ui.split = Except.error 0 := by
      rw [select_split_fn, if_neg (by simp [hw]), if_pos hc]
    simp [backupExitCode, backup_workflow, exit_code, select_output_path_fn,
      h1, h2, h3, h4, h5', h6, he, hs]
  · intro env ui e pw hok he hw hc hbad
    obtain ⟨h1, h2, h3, h4, h5, h6⟩ := hok
    have h5' : dev_path ui.partTag ∈ env.existingPaths := by simpa using h5
    have hs : select_split_fn ui.split = Except.error 1 := by
      rw [select_split_fn, if_neg (by simp [hw]), if_neg (by simp [hc]),
        upper_first_eq_first, if_pos hbad]
    simp [backupExitCode, backup_workflow, exit_code, select_output_path_fn,
      h1, h2, h3, h4, h5', h6, he, hs]
  · intro env ui e pw s size hok he hs hcf hdd
    obtain ⟨h1, h2, h3, h4, h5, h6⟩ := hok
    have h5' : dev_path ui.partTag ∈ env.existingPaths := by simpa using h5
    simp [backupExitCode, backup_workflow, exit_code, select_output_path_fn,
      h1, h2, h3, h4, h5', h6, he, hs, hcf, hdd]
  · intro env ui e pw s size hok he hs hcf hdd
    obtain ⟨h1, h2, h3, h4, h5, h6⟩ := hok
    have h5' : dev_path ui.partTag ∈ env.existingPaths := by simpa using h5
    simp [backupExitCode, backup_workflow, exit_code, select_output_path_fn,
      h1, h2, h3, h4, h5', h6, he, hs, hcf, hdd]
  · intro env ui e pw s size hok he hs hcf
    obtain ⟨h1, h2, h3, h4, h5, h6⟩ := hok
    have h5' : dev_path ui.partTag ∈ env.existingPaths := by simpa using h5
    simp [backupExitCode, backup_workflow, exit_code, select_output_path_fn,
      h1, h2, h3, h4, h5', h6, he, hs, hcf]
  · intro env ui h1
    simp [restoreExitCode, restore_workflow, exit_code, h1]
  · intro env ui h1 h2
    have h2' : ui.filePath ∉ env.fs := by simpa using h2
    simp [restoreExitCode, restore_workflow, exit_code, h1, h2']
  · intro env ui h1 h2 hE hpw
    have h2' : ui.filePath ∈ env.fs := by simpa using h2
    simp [restoreExitCode, restore_workflow, exit_code, h1, h2', hE, hpw]
  · intro env ui h1 h2 hpwok h4
    have h2' : ui.filePath ∈ env.fs := by simpa using h2
    cases hE : (detect_file_properties env.fs env.header ui.filePath).IS_ENCRYPTED with
    | false => simp [restoreExitCode, restore_workflow, exit_code, h1, h2', hE, h4]
    | true => simp [restoreExitCode, restore_workflow, exit_code, h1, h2', hE, hpwok hE, h4]
  · intro env ui h1 h2 hpwok h4 h5
    have h2' : ui.filePath ∈ env.fs := by simpa using h2
    cases hE : (detect_file_properties env.fs env.header ui.filePath).IS_ENCRYPTED with
    | false => simp [restoreExitCode, restore_workflow, exit_code, h1, h2', hE, h4, h5]
    | true => simp [restoreExitCode, restore_workflow, exit_code, h1, h2', hE, hpwok hE, h4, h5]
  · intro env ui h1 h2 hpwok h4 h5 h6
    have h2' : ui.filePath ∈ env.fs := by simpa using h2
    cases hE : (detect_file_properties env.fs env.header ui.filePath).IS_ENCRYPTED with
    | false =>
      simp [restoreExitCode, restore_workflow, exit_code, h1, h2', hE, h4, h5, h6]
    | true =>
      simp [restoreExitCode, restore_workflow, exit_code, h1, h2', hE, hpwok hE, h4, h5, h6]
  · intro env ui h1 h2 hpwok h4 h5 h6 h7
    have h2' : ui.filePath ∈ env.fs := by simpa using h2
    cases hE : (detect_file_properties env.fs env.header ui.filePath).IS_ENCRYPTED with
    | false =>
      simp [restoreExitCode, restore_workflow, exit_code, h1, h2', hE, h4, h5, h6, h7]
    | true =>
      simp [restoreExitCode, restore_workflow, exit_code, h1, h2', hE, hpwok hE,
        h4, h5, h6, h7]
  · intro env ui h1 h2 hpwok h4 h5 h6 h7 h8
    have h2' : ui.filePath ∈ env.fs := by simpa using h2
    have h8' : dev_path ui.partTag ∉ env.devPaths := by simpa using h8
    cases hE : (detect_file_properties env.fs env.header ui.filePath).IS_ENCRYPTED with
    | false =>
      simp [restoreExitCode, restore_workflow, exit_code, h1, h2', hE, h4, h5, h6, h7, h8']
    | true =>
      simp [restoreExitCode, restore_workflow, exit_code, h1, h2', hE, hpwok hE,
        h4, h5, h6, h7, h8']
  · intro env ui hok hcf
    obtain ⟨h1, h2, hpwok, h4, h5, h6, h7, h8⟩ := hok
    have h2' : ui.filePath ∈ env.fs := by simpa using h2
    have h8' : dev_path ui.partTag ∈ env.devPaths := by simpa using h8
    cases hE : (detect_file_properties env.fs env.header ui.filePath).IS_ENCRYPTED with
    | false =>
      simp [restoreExitCode, restore_workflow, exit_code, h1, h2', hE, h4, h5, h6, h7, h8', hcf]
    | true =>
      simp [restoreExitCode, restore_workflow, exit_code, h1, h2', hE, hpwok hE,
        h4, h5, h6, h7, h8', hcf]
  · intro env ui hok hcf hsp hempty
    obtain ⟨h1, h2, hpwok, h4, h5, h6, h7, h8⟩ := hok
    have h2' : ui.filePath ∈ env.fs := by simpa using h2
    have h8' : dev_path ui.partTag ∈ env.devPaths := by simpa using h8
    have hrc : restore_image_cmd env.fs ui.filePath (dev_path ui.partTag)
        (detect_file_properties env.fs env.header ui.filePath).IS_ENCRYPTED
        (detect_file_properties env.fs env.header ui.filePath).IS_COMPRESSED
        (detect_file_properties env.fs env.header ui.filePath).IS_SPLIT
        ui.password = Except.error 1 := by
      rw [hsp]
      simp [restore_image_cmd, hempty]
    cases hE : (detect_file_properties env.fs env.header ui.filePath).IS_ENCRYPTED with
    | false =>
      have hrc' := hrc
      rw [hE] at hrc'
      have hrc'' : restore_image_cmd env.fs ui.filePath (dev_path ui.partTag) false
          (detect_file_properties env.fs env.header ui.filePath).IS_COMPRESSED
          (detect_file_properties env.fs env.header ui.filePath).IS_SPLIT
          "" = Except.error 1 := by
        rw [hsp] at hrc' ⊢
        simp [restore_image_cmd, hempty] at hrc' ⊢
      simp [restoreExitCode, restore_workflow, exit_code, h1, h2', hE,
        h4, h5, h6, h7, h8', hcf, hrc'']
    | true =>
      have hrc' := hrc
      rw [hE] at hrc'
      simp [restoreExitCode, restore_workflow, exit_code, h1, h2', hE, hpwok hE,
        h4, h5, h6, h7, h8', hcf, hrc']
  · intro env ui hok hcf hne hrun
    obtain ⟨h1, h2, hpwok, h4, h5, h6, h7, h8⟩ := hok
    have h2' : ui.filePath ∈ env.fs := by simpa using h2
    have h8' : dev_path ui.partTag ∈ env.devPaths := by simpa using h8
    cases hE : (detect_file_properties env.fs env.header ui.filePath).IS_ENCRYPTED with
    | false =>
      obtain ⟨cmd, hcmd⟩ := restore_image_cmd_isOk env.fs ui.filePath (dev_path ui.partTag) ""
        false (detect_file_properties env.fs env.header ui.filePath).IS_COMPRESSED
        (detect_file_properties env.fs env.header ui.filePath).IS_SPLIT hne
      simp [restoreExitCode, restore_workflow, exit_code, h1, h2', hE,
        h4, h5, h6, h7, h8', hcf, hcmd, hrun]
    | true =>
      obtain ⟨cmd, hcmd⟩ := restore_image_cmd_isOk env.fs ui.filePath (dev_path ui.partTag) ui.password
        true (detect_file_properties env.fs env.header ui.filePath).IS_COMPRESSED
        (detect_file_properties env.fs env.header ui.filePath).IS_SPLIT hne
      simp [restoreExitCode, restore_workflow, exit_code, h1, h2', hE, hpwok hE,
        h4, h5, h6, h7, h8', hcf, hcmd, hrun]
  · intro env ui hok hcf hne hrun
    obtain ⟨h1, h2, hpwok, h4, h5, h6, h7, h8⟩ := hok
    have h2' : ui.filePath ∈ env.fs := by simpa using h2
    have h8' : dev_path ui.partTag ∈ env.devPaths := by simpa using h8
    cases hE : (detect_file_properties env.fs env.header ui.filePath).IS_ENCRYPTED with
    | false =>
      obtain ⟨cmd, hcmd⟩ := restore_image_cmd_isOk env.fs ui.filePath (dev_path ui.partTag) ""
        false (detect_file_properties env.fs env.header ui.filePath).IS_COMPRESSED
        (detect_file_properties env.fs env.header ui.filePath).IS_SPLIT hne
      simp [restoreExitCode, restore_workflow, exit_code, h1, h2', hE,
        h4, h5, h6, h7, h8', hcf, hcmd, hrun]
    | true =>
      obtain ⟨cmd, hcmd⟩ := restore_image_cmd_isOk env.fs ui.filePath (dev_path ui.partTag) ui.password
        true (detect_file_properties env.fs env.header ui.filePath).IS_COMPRESSED
        (detect_file_properties env.fs env.header ui.filePath).IS_SPLIT hne
      simp [restoreExitCode, restore_workflow, exit_code, h1, h2', hE, hpwok hE,
        h4, h5, h6, h7, h8', hcf, hcmd, hrun]

/-- Witness for `claim_C8_amended`: a completed backup exits 0, an invalid
split size exits 1, a completed restore exits 0, a cancelled
destination-partition menu exits 0, and an empty partition inventory on
restore exits 1, at concrete inputs. -/
theorem claim_C8_witness :
    backupExitCode
      { devices := [("sda", "500G | Disk")], partitions := [("sda1", "100G | ext4 | /")],
        existingPaths := ["/dev/sda1"], availableSpace := 9999, partitionSize := 100,
        ddSucceeds := true }
      { deviceCode := true, deviceTag := "sda", partCode := true, partTag := "sda1",
        outCode := true, outPath := "/tmp/img",
        enc := { wantEncrypt := true, pw1Code := true, pw1 := "pw", pw2Code := true, pw2 := "pw" },
        comp := true, split := { wantSplit := false, sizeCode := false, sizeText := "" },
        confirm := true } = 0
    ∧ backupExitCode
      { devices := [("sda", "500G | Disk")], partitions := [("sda1", "100G | ext4 | /")],
        existingPaths := ["/dev/sda1"], availableSpace := 9999, partitionSize := 100,
        ddSucceeds := true }
      { deviceCode := true, deviceTag := "sda", partCode := true, partTag := "sda1",
        outCode := true, outPath := "/tmp/img",
        enc := { wantEncrypt := false, pw1Code := false, pw1 := "", pw2Code := false, pw2 := "" },
        comp := false, split := { wantSplit := true, sizeCode := true, sizeText := "G100" },
        confirm := true } = 1
    ∧ restoreExitCode
      { fs := ["/tmp/backup.img"], header := none, devices := [("sdb", "1T | Disk")],
        partitions := [("sdb1", "500G | ext4 |")], devPaths := ["/dev/sdb1"],
        runSucceeds := true }
      { fileCode := true, filePath := "/tmp/backup.img", pwCode := true, password := "",
        deviceCode := true, deviceTag := "sdb", partCode := true, partTag := "sdb1",
        confirm := true } = 0
    ∧ restoreExitCode
      { fs := ["/tmp/backup.img"], header := none, devices := [("sdb", "1T | Disk")],
        partitions := [("sdb1", "500G | ext4 |")], devPaths := ["/dev/sdb1"],
        runSucceeds := true }
      { fileCode := true, filePath := "/tmp/backup.img", pwCode := true, password := "",
        deviceCode := true, deviceTag := "sdb", partCode := false, partTag := "",
        confirm := true } = 0
    ∧ restoreExitCode
      { fs := ["/tmp/backup.img"], header := none, devices := [("sdb", "1T | Disk")],
        partitions := [], devPaths := ["/dev/sdb1"], runSucceeds := true }
      { fileCode := true, filePath := "/tmp/backup.img", pwCode := true, password := "",
        deviceCode := true, deviceTag := "sdb", partCode := true, partTag := "sdb1",
        confirm := true } = 1 := by
  obtain ⟨c1, c2, c3, c4, c5, c6, c7, c8, c9, c10, c11, c12, c13,
    r1, r2, r3, r4, r5, r6, r7, r8, r9, r10, r11, r12⟩ := claim_C8_amended
  refine ⟨?_, ?_, ?_, ?_, ?_⟩
  · exact c12 _ _ true "pw" false ""
      ⟨by decide, rfl, by decide, rfl, by rfl, rfl⟩ (by rfl) (by rfl) rfl rfl
  · exact c10 _ _ false "" ⟨by decide, rfl, by decide, rfl, by rfl, rfl⟩
      (by rfl) rfl rfl (Or.inr (by decide))
  · exact r12 _ _ ⟨rfl, by rfl, by decide, by decide, rfl, by decide, rfl, by rfl⟩
      rfl (by decide) rfl
  · exact r7 _ _ rfl (by rfl) (by decide) (by decide) rfl (by decide) rfl
  · exact r6 _ _ rfl (by rfl) (by decide) (by decide) rfl rfl

/-! ## Claim C9: space shortage is advisory only -/

/-- Claim C9: when the destination's free space is smaller than the source
partition, `select_output_path` only shows a warning (the Bool of its result,
true exactly when the partition exceeds the space) and always proceeds with
the entered path; and the whole backup workflow — in particular the command
it builds and its exit — is unchanged by the available space. -/
theorem claim_C9_space_advisory :
    (∀ (avail psize : Nat) (path : String),
      select_output_path_fn avail psize true path = Except.ok (path, decide (psize > avail)))
    ∧ (∀ (env : BackupEnv) (ui : BackupUI) (a b : Nat),
      backup_workflow { env with availableSpace := a } ui
        = backup_workflow { env with availableSpace := b } ui) := by
  constructor
  · intro avail psize path
    rfl
  · intro env ui a b
    cases hout : ui.outCode with
    | false => simp [backup_workflow, select_output_path_fn, hout]
    | true => simp [backup_workflow, select_output_path_fn, hout]

/-- Witness for `claim_C9_space_advisory`: zero free space against a huge
partition still returns the path (with the warning shown), and the workflow
is identical under 0 and 9999 bytes free. -/
theorem claim_C9_witness :
    select_output_path_fn 0 999999 true "/tmp/img" = Except.ok ("/tmp/img", true)
    ∧ backup_workflow
        { devices := [("sda", "d")], partitions := [("sda1", "p")],
          existingPaths := ["/dev/sda1"], availableSpace := 0, partitionSize := 999999,
          ddSucceeds := true }
        { deviceCode := true, deviceTag := "sda", partCode := true, partTag := "sda1",
          outCode := true, outPath := "/tmp/img",
          enc := { wantEncrypt := false, pw1Code := false, pw1 := "", pw2Code := false, pw2 := "" },
          comp := false, split := { wantSplit := false, sizeCode := false, sizeText := "" },
          confirm := true }
      = backup_workflow
        { devices := [("sda", "d")], partitions := [("sda1", "p")],
          existingPaths := ["/dev/sda1"], availableSpace := 9999999, partitionSize := 999999,
          ddSucceeds := true }
        { deviceCode := true, deviceTag := "sda", partCode := true, partTag := "sda1",
          outCode := true, outPath := "/tmp/img",
          enc := { wantEncrypt := false, pw1Code := false, pw1 := "", pw2Code := false, pw2 := "" },
          comp := false, split := { wantSplit := false, sizeCode := false, sizeText := "" },
          confirm := true } :=
  ⟨claim_C9_space_advisory.1 0 999999 "/tmp/img",
   claim_C9_space_advisory.2
     { devices := [("sda", "d")], partitions := [("sda1", "p")],
       existingPaths := ["/dev/sda1"], availableSpace := 0, partitionSize := 999999,
       ddSucceeds := true }
     { deviceCode := true, deviceTag := "sda", partCode := true, partTag := "sda1",
       outCode := true, outPath := "/tmp/img",
       enc := { wantEncrypt := false, pw1Code := false, pw1 := "", pw2Code := false, pw2 := "" },
       comp := false, split := { wantSplit := false, sizeCode := false, sizeText := "" },
       confirm := true } 0 9999999⟩

end Hardclone
